import Mathlib

/-!
Shallow embedding of the data-access layer of the Christmas 3D Shop backend
(`src/main.py`): the document model, the `serialize_doc` serializer, the
ObjectId validation of `PyObjectId.validate`, the MongoDB collection
operations the handlers invoke (`update_one`, `find_one`, `delete_one`,
`find({}).sort("created_at", -1)`), and the three product handlers
`list_products`, `update_product`, `delete_product`.

Documents are Python dicts: we represent them as association lists with
unique keys and implement dict semantics (`dget` = `d.get`/`d[k]`,
`dset` = `d[k] = v`, `dpop` = `d.pop(k, None)`).  Handlers are pure
functions of the database state (`db` is `Option DB`, `None` when the
store is not configured) plus the current time, and return the HTTP
response, the resulting database state, and the trace of store calls
performed.
-/

/-- A JSON-ish value stored in a document field.  `oid` is an internal
BSON ObjectId carried as its 24-char lowercase hex string; `time` is a
datetime, carried as an abstract tick count. -/
inductive Value where
  | str (s : String)
  | num (q : ℚ)
  | bool (b : Bool)
  | null
  | oid (hex : String)
  | time (t : Nat)
  deriving DecidableEq, Repr

/-- A document: a Python dict from field names to values, represented as
an association list in insertion order. -/
abbrev Document := List (String × Value)

/-- Dict read `doc.get(k)` / `doc[k]`: value of the first entry with key `k`. -/
def dget : Document → String → Option Value
  | [], _ => none
  | (k', v') :: d, k => if k' = k then some v' else dget d k

/-- Dict write `doc[k] = v`: replace the value at key `k` in place, or append the
pair at the end when the key is absent (Python dict insertion order). -/
def dset : Document → String → Value → Document
  | [], k, v => [(k, v)]
  | (k', v') :: d, k, v => if k' = k then (k, v) :: d else (k', v') :: dset d k v

/-- Dict removal `doc.pop(k, None)`: remove the entry with key `k` (all entries with
that key; a well-formed dict has at most one). -/
def dpop : Document → String → Document
  | [], _ => []
  | (k', v') :: d, k => if k' = k then dpop d k else (k', v') :: dpop d k

/-- Python `str()` applied to an optional field value, as used by
`serialize_doc` on `doc.get("_id")`: `str(None)` is `"None"`, `str` of an
ObjectId is its hex string. -/
def pyStr : Option Value → String
  | none => "None"
  | some (.str s) => s
  | some (.num q) => toString q
  | some (.bool b) => if b then "True" else "False"
  | some .null => "None"
  | some (.oid hex) => hex
  | some (.time t) => toString t

/-- Body of `serialize_doc` on a non-empty dict:
`doc["id"] = str(doc.get("_id")); doc.pop("_id", None); return doc`. -/
def serialize_core (d : Document) : Document :=
  dpop (dset d "id" (.str (pyStr (dget d "_id")))) "_id"

/-- The whole of `serialize_doc` applied to a dict: the empty dict is falsy and is
returned unchanged, otherwise the identifier field is rewritten. -/
def serialize_dict (d : Document) : Document :=
  if d.isEmpty then d else serialize_core d

/-- The serializer as called on a `find_one` result, which may be
`None`: `if not doc: return doc` passes `None` through unchanged. -/
def serialize_doc : Option Document → Option Document
  | none => none
  | some d => some (serialize_dict d)

/-- Hex digit test used by the ObjectId syntax check. -/
def isHexChar (c : Char) : Bool :=
  c.isDigit || (decide (97 ≤ c.toNat) && decide (c.toNat ≤ 102))
    || (decide (65 ≤ c.toNat) && decide (c.toNat ≤ 70))

/-- Validity check `ObjectId.is_valid` on a string: exactly 24 hexadecimal characters. -/
def isValidObjectId (s : String) : Bool :=
  s.length == 24 && s.toList.all isHexChar

/-- Lowercase a hexadecimal digit (the only letters a valid ObjectId
string can contain). -/
def hexLower (c : Char) : Char :=
  match c with
  | 'A' => 'a' | 'B' => 'b' | 'C' => 'c'
  | 'D' => 'd' | 'E' => 'e' | 'F' => 'f'
  | _ => c

/-- Conversion `ObjectId(s)`: the internal identifier a valid hex string denotes.
ObjectId stores the 12 bytes, so case is normalised away; we carry the
lowercase hex form. -/
def mkObjectId (s : String) : String := ⟨s.data.map hexLower⟩

/-- Does a stored document match the query `{"_id": oid}`? -/
def matchesId (d : Document) (oid : String) : Bool :=
  decide (dget d "_id" = some (.oid oid))

/-- Store read `collection.find_one({"_id": oid})`: first matching document. -/
def find_one : List Document → String → Option Document
  | [], _ => none
  | d :: ds, oid => if matchesId d oid then some d else find_one ds oid

/-- Apply a `$set` update document to a stored document: set each listed
field in order. -/
def applySet (d : Document) (data : Document) : Document :=
  data.foldl (fun acc kv => dset acc kv.1 kv.2) d

/-- Store write `collection.update_one({"_id": oid}, {"$set": data})`: update the
first matching document; returns `(matched_count, new collection)`. -/
def update_one : List Document → String → Document → Nat × List Document
  | [], _, _ => (0, [])
  | d :: ds, oid, data =>
    if matchesId d oid then (1, applySet d data :: ds)
    else
      let r := update_one ds oid data
      (r.1, d :: r.2)

/-- Store removal `collection.delete_one({"_id": oid})`: remove the first matching
document; returns `(deleted_count, new collection)`. -/
def delete_one : List Document → String → Nat × List Document
  | [], _ => (0, [])
  | d :: ds, oid =>
    if matchesId d oid then (1, ds)
    else
      let r := delete_one ds oid
      (r.1, d :: r.2)

/-- The database handle: the `product` collection.  The handlers see the
handle as `Option DB`; `none` models `db is None` (store unconfigured). -/
structure DB where
  product : List Document
  deriving DecidableEq, Repr

/-- The `ProductUpdate` pydantic model.  Each field is doubly optional:
the outer `Option` is "was the field supplied at all" (pydantic
`exclude_unset`), the inner one is an explicit JSON `null`. -/
structure ProductUpdate where
  title : Option (Option String)
  description : Option (Option String)
  price : Option (Option ℚ)
  category : Option (Option String)
  in_stock : Option (Option Bool)
  deriving DecidableEq, Repr

/-- One entry of `payload.model_dump(exclude_unset=True)` after the
null filter `{k: v for k, v in ... if v is not None}`: a supplied
non-null field contributes its pair, anything else contributes nothing. -/
def setCell (k : String) : Option (Option Value) → List (String × Value)
  | some (some v) => [(k, v)]
  | _ => []

/-- The sparse update dict `data` built by `update_product`: supplied
non-null fields, in model field order. -/
def updateData (p : ProductUpdate) : Document :=
  setCell "title" (p.title.map (Option.map Value.str))
    ++ setCell "description" (p.description.map (Option.map Value.str))
    ++ setCell "price" (p.price.map (Option.map Value.num))
    ++ setCell "category" (p.category.map (Option.map Value.str))
    ++ setCell "in_stock" (p.in_stock.map (Option.map Value.bool))

/-- An HTTP response of one of the product handlers. -/
inductive Response where
  | jsonOpt (doc : Option Document)
  | jsonList (docs : List Document)
  | okStatus
  | error (status : Nat) (detail : String)
  deriving DecidableEq, Repr

/-- A store round-trip performed by a handler, recorded for the frame
claims ("no store call before validation"). -/
inductive StoreOp where
  | updateOne (oid : String) (data : Document)
  | findOne (oid : String)
  | deleteOne (oid : String)
  deriving DecidableEq, Repr

/-- Creation-timestamp key of a stored document, for the listing sort. -/
def createdAt (d : Document) : Option Value := dget d "created_at"

/-- MongoDB sort key order, embedded into a lexicographic linear order:
BSON type rank first (missing and null lowest, then numbers, strings,
ObjectIds, booleans, dates), then the value within the type.  The
product collection stores datetimes in `created_at`, so only the `time`
rank is exercised there; dates compare by value. -/
def keyMeasure : Option Value → ℕ ×ₗ (ℚ ×ₗ String)
  | none => toLex (0, toLex (0, ""))
  | some .null => toLex (0, toLex (0, ""))
  | some (.num q) => toLex (1, toLex (q, ""))
  | some (.str s) => toLex (2, toLex (0, s))
  | some (.oid s) => toLex (3, toLex (0, s))
  | some (.bool b) => toLex (if b then 5 else 4, toLex (0, ""))
  | some (.time t) => toLex (6, toLex ((t : ℚ), ""))

/-- Descending comparison on `created_at` keys. -/
def keyGe (a b : Option Value) : Bool :=
  decide (keyMeasure b ≤ keyMeasure a)

/-- Descending `created_at` order on documents, as a relation for
`List.insertionSort`. -/
def prodGe (a b : Document) : Prop := keyGe (createdAt a) (createdAt b) = true

instance : DecidableRel prodGe := fun a b => by
  unfold prodGe; infer_instance

instance : IsTotal Document prodGe :=
  ⟨fun a b => by
    simp only [prodGe, keyGe, decide_eq_true_eq]
    exact le_total _ _⟩

instance : IsTrans Document prodGe :=
  ⟨fun a b c h1 h2 => by
    simp only [prodGe, keyGe, decide_eq_true_eq] at h1 h2 ⊢
    exact le_trans h2 h1⟩

/-- Store query `collection.find({}).sort("created_at", -1)`: the stored documents
in descending `created_at` order. -/
def sortDesc (l : List Document) : List Document :=
  List.insertionSort prodGe l

/-- Handler of `GET /api/products`: empty list when the store handle is absent,
otherwise every stored product, sorted newest first and serialized. -/
def list_products (st : Option DB) : Response :=
  match st with
  | none => .jsonList []
  | some dbv => .jsonList ((sortDesc dbv.product).map serialize_dict)

/-- Handler of `PUT /api/products/{product_id}`: the update handler.  `now` is the
`datetime.now(timezone.utc)` stamp.  Returns the response, the resulting
database state and the trace of store calls. -/
def update_product (st : Option DB) (now : Nat) (pid : String)
    (p : ProductUpdate) : Response × Option DB × List StoreOp :=
  match st with
  | none => (.error 500 "Database not configured", none, [])
  | some dbv =>
    if isValidObjectId pid then
      let oid := mkObjectId pid
      let data := updateData p
      if data.isEmpty then (.error 400 "No fields to update", some dbv, [])
      else
        let data2 := dset data "updated_at" (.time now)
        let r := update_one dbv.product oid data2
        if r.1 == 0 then
          (.error 404 "Product not found", some ⟨r.2⟩, [.updateOne oid data2])
        else
          (.jsonOpt (serialize_doc (find_one r.2 oid)), some ⟨r.2⟩,
            [.updateOne oid data2, .findOne oid])
    else (.error 400 "Invalid objectid", some dbv, [])

/-- Payload with the explicit-null fields dropped, as the null filter in
`update_product` produces: a supplied-`null` field becomes unsupplied. -/
def stripCell {α : Type} : Option (Option α) → Option (Option α)
  | some none => none
  | x => x

/-- The payload with every explicitly-null field dropped. -/
def stripNulls (p : ProductUpdate) : ProductUpdate :=
  ⟨stripCell p.title, stripCell p.description, stripCell p.price,
    stripCell p.category, stripCell p.in_stock⟩

/-- Handler of `DELETE /api/products/{product_id}`: the delete handler. -/
def delete_product (st : Option DB) (pid : String) :
    Response × Option DB × List StoreOp :=
  match st with
  | none => (.error 500 "Database not configured", none, [])
  | some dbv =>
    if isValidObjectId pid then
      let oid := mkObjectId pid
      let r := delete_one dbv.product oid
      if r.1 == 0 then
        (.error 404 "Product not found", some ⟨r.2⟩, [.deleteOne oid])
      else (.okStatus, some ⟨r.2⟩, [.deleteOne oid])
    else (.error 400 "Invalid objectid", some dbv, [])

/-! ### Dictionary lemmas -/

theorem dget_dset_self (d : Document) (k : String) (v : Value) :
    dget (dset d k v) k = some v := by
  induction d with
  | nil => simp [dset, dget]
  | cons hd tl ih =>
    obtain ⟨k', v'⟩ := hd
    by_cases h : k' = k
    · simp [dset, h, dget]
    · simp [dset, h, dget, ih]

theorem dget_dset_ne (d : Document) (k k' : String) (v : Value)
    (h : k' ≠ k) : dget (dset d k v) k' = dget d k' := by
  have h2 : k ≠ k' := Ne.symm h
  induction d with
  | nil => simp [dset, dget, h2]
  | cons hd tl ih =>
    obtain ⟨a, b⟩ := hd
    by_cases ha : a = k
    · subst ha
      simp [dset, dget, h2]
    · by_cases ha' : a = k'
      · subst ha'
        simp [dset, dget, h]
      · simp [dset, ha, dget, ha', ih]

theorem dget_dpop_self (d : Document) (k : String) :
    dget (dpop d k) k = none := by
  induction d with
  | nil => simp [dpop, dget]
  | cons hd tl ih =>
    obtain ⟨a, b⟩ := hd
    by_cases ha : a = k
    · simp [dpop, ha, ih]
    · simp [dpop, ha, dget, ih]

theorem dget_dpop_ne (d : Document) (k k' : String) (h : k' ≠ k) :
    dget (dpop d k) k' = dget d k' := by
  induction d with
  | nil => simp [dpop]
  | cons hd tl ih =>
    obtain ⟨a, b⟩ := hd
    by_cases ha : a = k
    · subst ha
      simp [dpop, dget, Ne.symm h, ih]
    · by_cases ha' : a = k'
      · subst ha'
        simp [dpop, dget, ha]
      · simp [dpop, ha, dget, ha', ih]

theorem dget_applySet_of_none (data : Document) (k : String)
    (h : dget data k = none) :
    ∀ d : Document, dget (applySet d data) k = dget d k := by
  induction data with
  | nil => intro d; rfl
  | cons hd tl ih =>
    intro d
    obtain ⟨a, b⟩ := hd
    rw [dget] at h
    by_cases ha : a = k
    · simp [ha] at h
    · rw [if_neg ha] at h
      show dget (applySet (dset d a b) tl) k = dget d k
      rw [ih h, dget_dset_ne _ _ _ _ fun hh => ha hh.symm]

/-! ### Store-operation lemmas -/

theorem matchesId_of_find_one {oid : String} {d : Document} :
    ∀ coll : List Document, find_one coll oid = some d →
      matchesId d oid = true := by
  intro coll
  induction coll with
  | nil => intro h; simp [find_one] at h
  | cons d0 ds ih =>
    intro h
    by_cases hm : matchesId d0 oid
    · simp [find_one, hm] at h
      subst h; exact hm
    · simp [find_one, hm] at h
      exact ih h

theorem find_one_eq_none_iff {oid : String} :
    ∀ coll : List Document, (find_one coll oid = none ↔
      ∀ e ∈ coll, matchesId e oid = false) := by
  intro coll
  induction coll with
  | nil => simp [find_one]
  | cons d0 ds ih =>
    have hstep : find_one (d0 :: ds) oid
        = if matchesId d0 oid then some d0 else find_one ds oid := rfl
    by_cases hm : matchesId d0 oid
    · rw [hstep, if_pos hm]
      constructor
      · intro h; exact absurd h (by simp)
      · intro h
        have h0 := h d0 (List.mem_cons_self d0 ds)
        rw [h0] at hm; exact absurd hm (by simp)
    · rw [hstep, if_neg hm, ih]
      constructor
      · intro h e he
        rcases List.mem_cons.mp he with he0 | hes
        · subst he0; simpa using hm
        · exact h e hes
      · intro h e he; exact h e (List.mem_cons_of_mem _ he)

theorem update_one_of_none (data : Document) {oid : String} :
    ∀ coll : List Document, find_one coll oid = none →
      update_one coll oid data = (0, coll) := by
  intro coll
  induction coll with
  | nil => intro _; simp [update_one]
  | cons d0 ds ih =>
    intro h
    by_cases hm : matchesId d0 oid
    · simp [find_one, hm] at h
    · simp [find_one, hm] at h
      simp [update_one, hm, ih h]

theorem update_one_of_some {oid : String} {data d : Document}
    (hdata : dget data "_id" = none) :
    ∀ coll : List Document, find_one coll oid = some d →
      ∃ coll', update_one coll oid data = (1, coll') ∧
        find_one coll' oid = some (applySet d data) := by
  intro coll
  induction coll with
  | nil => intro h; simp [find_one] at h
  | cons d0 ds ih =>
    intro h
    by_cases hm : matchesId d0 oid
    · simp [find_one, hm] at h
      subst h
      refine ⟨applySet d0 data :: ds, by simp [update_one, hm], ?_⟩
      have hm' : matchesId (applySet d0 data) oid = true := by
        unfold matchesId at hm ⊢
        rw [dget_applySet_of_none data "_id" hdata d0]
        exact hm
      simp [find_one, hm']
    · simp [find_one, hm] at h
      obtain ⟨coll', h1, h2⟩ := ih h
      exact ⟨d0 :: coll', by simp [update_one, hm, h1],
        by simp [find_one, hm, h2]⟩

theorem delete_one_of_none {oid : String} :
    ∀ coll : List Document, find_one coll oid = none →
      delete_one coll oid = (0, coll) := by
  intro coll
  induction coll with
  | nil => intro _; simp [delete_one]
  | cons d0 ds ih =>
    intro h
    by_cases hm : matchesId d0 oid
    · simp [find_one, hm] at h
    · simp [find_one, hm] at h
      simp [delete_one, hm, ih h]

theorem delete_one_of_some {oid : String} {d : Document} :
    ∀ coll : List Document, find_one coll oid = some d →
      (coll.filter (fun e => matchesId e oid)).length ≤ 1 →
      ∃ coll', delete_one coll oid = (1, coll') ∧
        find_one coll' oid = none := by
  intro coll
  induction coll with
  | nil => intro h _; simp [find_one] at h
  | cons d0 ds ih =>
    intro h hu
    by_cases hm : matchesId d0 oid
    · refine ⟨ds, by simp [delete_one, hm], ?_⟩
      have hfil : (ds.filter (fun e => matchesId e oid)).length = 0 := by
        rw [List.filter_cons, if_pos hm, List.length_cons] at hu
        omega
      rw [find_one_eq_none_iff]
      intro e he
      by_contra hc
      have hmem : e ∈ ds.filter (fun e => matchesId e oid) :=
        List.mem_filter.mpr ⟨he, by simpa using hc⟩
      rw [List.length_eq_zero] at hfil
      simp [hfil] at hmem
    · simp [find_one, hm] at h
      have hu' : (ds.filter (fun e => matchesId e oid)).length ≤ 1 := by
        simpa [List.filter_cons, hm] using hu
      obtain ⟨coll', h1, h2⟩ := ih h hu'
      exact ⟨d0 :: coll', by simp [delete_one, hm, h1],
        by simp [find_one, hm, h2]⟩

/-! ### Concrete fixtures used by the witness theorems -/

/-- A well-formed product identifier (24 lowercase hex characters). -/
def wPid : String := "0123456789abcdef01234567"

/-- A stored product document carrying `wPid` as its identifier. -/
def wDoc : Document :=
  [("_id", .oid wPid), ("title", .str "Tree"), ("description", .null),
   ("price", .num 49), ("category", .str "Geral"), ("in_stock", .bool true),
   ("created_at", .time 5)]

/-- A database whose product collection holds exactly `wDoc`. -/
def wDB : DB := ⟨[wDoc]⟩

/-! ### Helper lemmas about the sparse update set -/

theorem updateData_stripNulls (p : ProductUpdate) :
    updateData (stripNulls p) = updateData p := by
  obtain ⟨t, e, pr, c, s⟩ := p
  rcases t with _ | (_ | tv) <;> rcases e with _ | (_ | ev) <;>
    rcases pr with _ | (_ | pv) <;> rcases c with _ | (_ | cv) <;>
    rcases s with _ | (_ | sv) <;> rfl

theorem dget_updateData_id (p : ProductUpdate) :
    dget (updateData p) "_id" = none := by
  obtain ⟨t, e, pr, c, s⟩ := p
  rcases t with _ | (_ | tv) <;> rcases e with _ | (_ | ev) <;>
    rcases pr with _ | (_ | pv) <;> rcases c with _ | (_ | cv) <;>
    rcases s with _ | (_ | sv) <;> rfl

/-! ### Claim theorems -/

/-- C2: for every string that is not a valid ObjectId, both the update
and the delete handler answer 400 "Invalid objectid" (never 404), leave
the database state unchanged, and perform no store call at all. -/
theorem invalid_identifier_rejected (dbv : DB) (now : Nat) (pid : String)
    (p : ProductUpdate) (h : isValidObjectId pid = false) :
    update_product (some dbv) now pid p
      = (.error 400 "Invalid objectid", some dbv, [])
    ∧ delete_product (some dbv) pid
      = (.error 400 "Invalid objectid", some dbv, []) := by
  constructor <;> simp [update_product, delete_product, h]

/-- Witness for C2 at the malformed identifier "nope". -/
theorem invalid_identifier_rejected_witness :
    isValidObjectId "nope" = false
    ∧ update_product (some ⟨[]⟩) 0 "nope" ⟨none, none, none, none, none⟩
        = (.error 400 "Invalid objectid", some ⟨[]⟩, [])
    ∧ delete_product (some ⟨[]⟩) "nope"
        = (.error 400 "Invalid objectid", some ⟨[]⟩, []) :=
  ⟨by decide,
    (invalid_identifier_rejected ⟨[]⟩ 0 "nope" ⟨none, none, none, none, none⟩
      (by decide)).1,
    (invalid_identifier_rejected ⟨[]⟩ 0 "nope" ⟨none, none, none, none, none⟩
      (by decide)).2⟩

/-- C5: for every well-formed identifier, an update whose payload is
empty (no field supplied) answers 400 "No fields to update", leaves the
database state unchanged, and performs no store call. -/
theorem empty_update_payload_rejected (dbv : DB) (now : Nat) (pid : String)
    (hv : isValidObjectId pid = true) :
    update_product (some dbv) now pid ⟨none, none, none, none, none⟩
      = (.error 400 "No fields to update", some dbv, []) := by
  have hd : updateData ⟨none, none, none, none, none⟩ = [] := rfl
  simp only [update_product, hv, if_true, hd, List.isEmpty_nil]

/-- Witness for C5 at a concrete valid identifier. -/
theorem empty_update_payload_rejected_witness :
    isValidObjectId "0123456789abcdef01234567" = true
    ∧ update_product (some ⟨[]⟩) 0 "0123456789abcdef01234567"
        ⟨none, none, none, none, none⟩
      = (.error 400 "No fields to update", some ⟨[]⟩, []) :=
  ⟨by decide,
    empty_update_payload_rejected ⟨[]⟩ 0 "0123456789abcdef01234567" (by decide)⟩

/-- C6: explicitly-null fields of an update payload are filtered out
before the store write: the handler behaves exactly as if those fields
had not been supplied, and a payload supplying only nulls behaves like
the empty payload. -/
theorem update_nulls_ignored (st : Option DB) (now : Nat) (pid : String)
    (p : ProductUpdate) :
    update_product st now pid p = update_product st now pid (stripNulls p)
    ∧ update_product st now pid
        ⟨some none, some none, some none, some none, some none⟩
      = update_product st now pid ⟨none, none, none, none, none⟩ := by
  have main : ∀ q : ProductUpdate,
      update_product st now pid q = update_product st now pid (stripNulls q) := by
    intro q
    cases st with
    | none => rfl
    | some dbv => simp only [update_product, updateData_stripNulls q]
  exact ⟨main p, main ⟨some none, some none, some none, some none, some none⟩⟩

/-- C9: the serializer passes an absent document (`None`) and the empty
document through unchanged instead of failing. -/
theorem serialize_empty_passthrough :
    serialize_doc none = none ∧ serialize_dict [] = ([] : Document) :=
  ⟨rfl, rfl⟩

/-- C7: listing returns the client views of all stored products in
descending creation-timestamp order; an absent store handle and an empty
collection both yield the empty sequence, not an error. -/
theorem list_products_sorted_views :
    list_products none = .jsonList []
    ∧ list_products (some ⟨[]⟩) = .jsonList []
    ∧ ∀ dbv : DB, ∃ l : List Document,
        l.Perm dbv.product ∧ List.Sorted prodGe l ∧
        list_products (some dbv) = .jsonList (l.map serialize_dict) := by
  refine ⟨rfl, rfl, fun dbv => ?_⟩
  exact ⟨sortDesc dbv.product, List.perm_insertionSort prodGe dbv.product,
    List.sorted_insertionSort prodGe dbv.product, rfl⟩

/-- C8: on a non-empty document carrying `_id`, the serializer removes
`_id`, adds `id` holding the identifier's string form, and leaves every
other field unchanged. -/
theorem serialize_renames_identifier (d : Document) (s : String)
    (hne : d ≠ []) (hid : dget d "_id" = some (.oid s)) :
    dget (serialize_dict d) "id" = some (.str s)
    ∧ dget (serialize_dict d) "_id" = none
    ∧ ∀ k, k ≠ "id" → k ≠ "_id" → dget (serialize_dict d) k = dget d k := by
  have hE : d.isEmpty = false := by
    cases d with
    | nil => exact absurd rfl hne
    | cons a l => rfl
  have h1 : serialize_dict d = serialize_core d := by
    simp [serialize_dict, hE]
  rw [h1]
  unfold serialize_core
  rw [hid]
  refine ⟨?_, ?_, ?_⟩
  · rw [dget_dpop_ne _ _ _ (by decide), dget_dset_self]
    rfl
  · rw [dget_dpop_self]
  · intro k hk1 hk2
    rw [dget_dpop_ne _ _ _ hk2, dget_dset_ne _ _ _ _ hk1]

/-- Witness for C8 at the concrete stored document `wDoc`. -/
theorem serialize_renames_identifier_witness :
    wDoc ≠ [] ∧ dget wDoc "_id" = some (.oid wPid)
    ∧ dget (serialize_dict wDoc) "id" = some (.str wPid)
    ∧ dget (serialize_dict wDoc) "_id" = none
    ∧ ∀ k, k ≠ "id" → k ≠ "_id" → dget (serialize_dict wDoc) k = dget wDoc k :=
  ⟨by decide, by decide,
    (serialize_renames_identifier wDoc wPid (by decide) (by decide)).1,
    (serialize_renames_identifier wDoc wPid (by decide) (by decide)).2.1,
    (serialize_renames_identifier wDoc wPid (by decide) (by decide)).2.2⟩

/-- C10: on a non-empty document lacking `_id`, the serializer does not
fail: it adds `id` with the string `"None"` (Python's `str(None)`) and
leaves every other field unchanged. -/
theorem serialize_missing_identifier (d : Document) (hne : d ≠ [])
    (hid : dget d "_id" = none) :
    dget (serialize_dict d) "id" = some (.str "None")
    ∧ ∀ k, k ≠ "id" → dget (serialize_dict d) k = dget d k := by
  have hE : d.isEmpty = false := by
    cases d with
    | nil => exact absurd rfl hne
    | cons a l => rfl
  have h1 : serialize_dict d = serialize_core d := by
    simp [serialize_dict, hE]
  rw [h1]
  unfold serialize_core
  rw [hid]
  constructor
  · rw [dget_dpop_ne _ _ _ (by decide), dget_dset_self]
    rfl
  · intro k hk
    by_cases hk2 : k = "_id"
    · subst hk2
      rw [dget_dpop_self, hid]
    · rw [dget_dpop_ne _ _ _ hk2, dget_dset_ne _ _ _ _ hk]

/-- C1: an update supplying only `price` changes, in the targeted stored
document, only the `price` field and the `updated_at` stamp (refreshed
to the time of the update); title, description, category, in_stock and
every other field keep their previous value. -/
theorem update_only_price_changes_only_price (dbv : DB) (now : Nat)
    (pid : String) (q : ℚ) (d : Document)
    (hv : isValidObjectId pid = true)
    (hfind : find_one dbv.product (mkObjectId pid) = some d) :
    ∃ dbv' : DB,
      (update_product (some dbv) now pid
          ⟨none, none, some (some q), none, none⟩).2.1 = some dbv'
      ∧ ∃ d', find_one dbv'.product (mkObjectId pid) = some d'
        ∧ dget d' "price" = some (.num q)
        ∧ dget d' "updated_at" = some (.time now)
        ∧ ∀ k, k ≠ "price" → k ≠ "updated_at" → dget d' k = dget d k := by
  have hno : dget [("price", Value.num q), ("updated_at", Value.time now)]
      "_id" = none := rfl
  obtain ⟨coll', h1, h2⟩ := update_one_of_some hno dbv.product hfind
  have hd : updateData ⟨none, none, some (some q), none, none⟩
      = [("price", Value.num q)] := rfl
  have hd2 : dset [("price", Value.num q)] "updated_at" (Value.time now)
      = [("price", Value.num q), ("updated_at", Value.time now)] := rfl
  have happ : applySet d [("price", Value.num q), ("updated_at", Value.time now)]
      = dset (dset d "price" (Value.num q)) "updated_at" (Value.time now) := rfl
  refine ⟨⟨coll'⟩, ?_, ?_⟩
  · simp only [update_product, hv, if_true, hd, hd2, List.isEmpty_cons,
      Bool.false_eq_true, if_false, h1]
    simp
  · refine ⟨applySet d [("price", Value.num q), ("updated_at", Value.time now)],
      h2, ?_, ?_, ?_⟩
    · rw [happ, dget_dset_ne _ _ _ _ (by decide), dget_dset_self]
    · rw [happ, dget_dset_self]
    · intro k hk1 hk2
      rw [happ, dget_dset_ne _ _ _ _ hk2, dget_dset_ne _ _ _ _ hk1]

/-- Witness for C1: a price-only update of the stored fixture document. -/
theorem update_only_price_changes_only_price_witness :
    isValidObjectId wPid = true
    ∧ find_one wDB.product (mkObjectId wPid) = some wDoc
    ∧ ∃ dbv' : DB,
      (update_product (some wDB) 7 wPid
          ⟨none, none, some (some 39), none, none⟩).2.1 = some dbv'
      ∧ ∃ d', find_one dbv'.product (mkObjectId wPid) = some d'
        ∧ dget d' "price" = some (.num 39)
        ∧ dget d' "updated_at" = some (.time 7)
        ∧ ∀ k, k ≠ "price" → k ≠ "updated_at" → dget d' k = dget wDoc k :=
  ⟨by decide, by decide,
    update_only_price_changes_only_price wDB 7 wPid 39 wDoc (by decide) (by decide)⟩

/-- C3: for a well-formed identifier and a non-empty sparse update set,
when no stored document matches the identifier the update answers 404
"Product not found" with the database unchanged (after the single
update-one round-trip); when one matches, the handler re-reads the
document by the same identifier and returns its serialized client view. -/
theorem update_notfound_or_reread (dbv : DB) (now : Nat) (pid : String)
    (p : ProductUpdate) (hv : isValidObjectId pid = true)
    (hne : updateData p ≠ []) :
    (find_one dbv.product (mkObjectId pid) = none →
      update_product (some dbv) now pid p
        = (.error 404 "Product not found", some dbv,
           [.updateOne (mkObjectId pid)
              (dset (updateData p) "updated_at" (.time now))]))
    ∧ ∀ d, find_one dbv.product (mkObjectId pid) = some d →
      ∃ dbv' : DB, (update_product (some dbv) now pid p).2.1 = some dbv'
        ∧ (update_product (some dbv) now pid p).1
            = .jsonOpt (serialize_doc (find_one dbv'.product (mkObjectId pid)))
        ∧ (update_product (some dbv) now pid p).2.2
            = [.updateOne (mkObjectId pid)
                 (dset (updateData p) "updated_at" (.time now)),
               .findOne (mkObjectId pid)] := by
  have hE : (updateData p).isEmpty = false := by
    cases hc : updateData p with
    | nil => exact absurd hc hne
    | cons a l => rfl
  have hno : dget (dset (updateData p) "updated_at" (Value.time now)) "_id"
      = none := by
    rw [dget_dset_ne _ _ _ _ (by decide), dget_updateData_id]
  constructor
  · intro h0
    have h1 := update_one_of_none
      (dset (updateData p) "updated_at" (Value.time now)) dbv.product h0
    simp only [update_product, hv, if_true, hE, Bool.false_eq_true, if_false, h1]
    simp
  · intro d hf
    obtain ⟨coll', h1, h2⟩ := update_one_of_some hno dbv.product hf
    refine ⟨⟨coll'⟩, ?_, ?_, ?_⟩ <;>
      · simp only [update_product, hv, if_true, hE, Bool.false_eq_true,
          if_false, h1]
        simp

/-- Witness for C3: a price-only update against the fixture database. -/
theorem update_notfound_or_reread_witness :
    isValidObjectId wPid = true
    ∧ updateData ⟨none, none, some (some 39), none, none⟩ ≠ []
    ∧ ((find_one wDB.product (mkObjectId wPid) = none →
        update_product (some wDB) 7 wPid ⟨none, none, some (some 39), none, none⟩
          = (.error 404 "Product not found", some wDB,
             [.updateOne (mkObjectId wPid)
                (dset (updateData ⟨none, none, some (some 39), none, none⟩)
                  "updated_at" (.time 7))]))
      ∧ ∀ d, find_one wDB.product (mkObjectId wPid) = some d →
        ∃ dbv' : DB,
          (update_product (some wDB) 7 wPid
              ⟨none, none, some (some 39), none, none⟩).2.1 = some dbv'
          ∧ (update_product (some wDB) 7 wPid
              ⟨none, none, some (some 39), none, none⟩).1
              = .jsonOpt (serialize_doc (find_one dbv'.product (mkObjectId wPid)))
          ∧ (update_product (some wDB) 7 wPid
              ⟨none, none, some (some 39), none, none⟩).2.2
              = [.updateOne (mkObjectId wPid)
                   (dset (updateData ⟨none, none, some (some 39), none, none⟩)
                     "updated_at" (.time 7)),
                 .findOne (mkObjectId wPid)]) :=
  ⟨by decide, by decide,
    update_notfound_or_reread wDB 7 wPid ⟨none, none, some (some 39), none, none⟩
      (by decide) (by decide)⟩

/-- C4: for a well-formed identifier, delete answers `{status: ok}`
exactly when one document is deleted and 404 "Product not found" when
none is; deleting the same identifier again after a successful delete
answers 404, not success. -/
theorem delete_ok_or_notfound (dbv : DB) (pid : String)
    (hv : isValidObjectId pid = true)
    (hu : (dbv.product.filter
        (fun e => matchesId e (mkObjectId pid))).length ≤ 1) :
    (find_one dbv.product (mkObjectId pid) = none →
      delete_product (some dbv) pid
        = (.error 404 "Product not found", some dbv,
           [.deleteOne (mkObjectId pid)]))
    ∧ ∀ d, find_one dbv.product (mkObjectId pid) = some d →
      ∃ coll', delete_one dbv.product (mkObjectId pid) = (1, coll')
        ∧ delete_product (some dbv) pid
            = (.okStatus, some ⟨coll'⟩, [.deleteOne (mkObjectId pid)])
        ∧ (delete_product (some ⟨coll'⟩) pid).1
            = .error 404 "Product not found" := by
  constructor
  · intro h0
    have h1 := delete_one_of_none dbv.product h0
    simp only [delete_product, hv, if_true, h1]
    simp
  · intro d hf
    obtain ⟨coll', h1, h2⟩ := delete_one_of_some dbv.product hf hu
    have h3 := delete_one_of_none coll' h2
    refine ⟨coll', h1, ?_, ?_⟩
    · simp only [delete_product, hv, if_true, h1]
      simp
    · simp only [delete_product, hv, if_true, h3]
      simp

/-- Witness for C4: deleting the fixture document succeeds once and then
answers 404 on the second call. -/
theorem delete_ok_or_notfound_witness :
    isValidObjectId wPid = true
    ∧ (wDB.product.filter (fun e => matchesId e (mkObjectId wPid))).length ≤ 1
    ∧ ((find_one wDB.product (mkObjectId wPid) = none →
        delete_product (some wDB) wPid
          = (.error 404 "Product not found", some wDB,
             [.deleteOne (mkObjectId wPid)]))
      ∧ ∀ d, find_one wDB.product (mkObjectId wPid) = some d →
        ∃ coll', delete_one wDB.product (mkObjectId wPid) = (1, coll')
          ∧ delete_product (some wDB) wPid
              = (.okStatus, some ⟨coll'⟩, [.deleteOne (mkObjectId wPid)])
          ∧ (delete_product (some ⟨coll'⟩) wPid).1
              = .error 404 "Product not found") :=
  ⟨by decide, by decide, delete_ok_or_notfound wDB wPid (by decide) (by decide)⟩

/-- Witness for C10 at a concrete non-empty document without `_id`. -/
theorem serialize_missing_identifier_witness :
    ([("title", Value.str "Tree")] : Document) ≠ []
    ∧ dget [("title", Value.str "Tree")] "_id" = none
    ∧ dget (serialize_dict [("title", Value.str "Tree")]) "id"
        = some (.str "None")
    ∧ ∀ k, k ≠ "id" →
        dget (serialize_dict [("title", Value.str "Tree")]) k
          = dget [("title", Value.str "Tree")] k :=
  ⟨by decide, by decide,
    (serialize_missing_identifier [("title", Value.str "Tree")]
      (by decide) (by decide)).1,
    (serialize_missing_identifier [("title", Value.str "Tree")]
      (by decide) (by decide)).2⟩
